import Mathlib

/-!
Verification development for the `lineon` 2x2 linear-transformation visualizer.

The definitions below are a shallow embedding of the repository's Python
source (`src/utils.py`, `src/callbacks.py`) into Lean.  Numeric code is
modelled over an arbitrary linear ordered field (instantiated at `ℚ` for
decidable witnesses and at `ℝ` for the trigonometric shape sampler), which
idealises the double-precision arithmetic of the source.  Fallible numpy
calls (`np.linalg.inv`) are modelled as `Option`-returning functions whose
`none` case corresponds to the raised `LinAlgError`.
-/

namespace Lineon

/-- A 2x2 matrix, row major, mirroring the `np.array([[a11,a12],[a21,a22]])`
values used throughout `src/utils.py` and `src/callbacks.py`. -/
structure Mat2 (α : Type*) where
  a11 : α
  a12 : α
  a21 : α
  a22 : α
deriving DecidableEq, Repr

namespace Mat2

variable {α : Type*} [LinearOrderedField α]

/-- Matrix addition (numpy `+` on 2x2 arrays). -/
instance : Add (Mat2 α) :=
  ⟨fun M N => ⟨M.a11 + N.a11, M.a12 + N.a12, M.a21 + N.a21, M.a22 + N.a22⟩⟩

/-- Matrix subtraction (numpy `-` on 2x2 arrays). -/
instance : Sub (Mat2 α) :=
  ⟨fun M N => ⟨M.a11 - N.a11, M.a12 - N.a12, M.a21 - N.a21, M.a22 - N.a22⟩⟩

/-- Matrix product (numpy `@` on 2x2 arrays). -/
instance : Mul (Mat2 α) :=
  ⟨fun M N =>
    ⟨M.a11 * N.a11 + M.a12 * N.a21, M.a11 * N.a12 + M.a12 * N.a22,
     M.a21 * N.a11 + M.a22 * N.a21, M.a21 * N.a12 + M.a22 * N.a22⟩⟩

/-- Scalar multiple `c * M` (numpy scalar-array product). -/
def scale (c : α) (M : Mat2 α) : Mat2 α :=
  ⟨c * M.a11, c * M.a12, c * M.a21, c * M.a22⟩

/-- Entrywise division by a scalar, numpy `matrix / c`. -/
def divScalar (M : Mat2 α) (c : α) : Mat2 α :=
  ⟨M.a11 / c, M.a12 / c, M.a21 / c, M.a22 / c⟩

/-- Matrix transpose, numpy `matrix.T`. -/
def transpose (M : Mat2 α) : Mat2 α := ⟨M.a11, M.a21, M.a12, M.a22⟩

/-- `np.trace` of a 2x2 matrix. -/
def tr (M : Mat2 α) : α := M.a11 + M.a22

/-- `np.linalg.det` of a 2x2 matrix (exact arithmetic). -/
def det (M : Mat2 α) : α := M.a11 * M.a22 - M.a12 * M.a21

/-- The 2x2 identity matrix, `np.eye(2)`. -/
def identity : Mat2 α := ⟨1, 0, 0, 1⟩

/-- The matrix applied to a point, matching the source's row-vector
convention `mapped = unmapped @ matrix.T`, i.e. the matrix acting on the
point as a column vector. -/
def apply (M : Mat2 α) (p : α × α) : α × α :=
  (M.a11 * p.1 + M.a12 * p.2, M.a21 * p.1 + M.a22 * p.2)

end Mat2

/-- `np.linalg.inv` on a 2x2 matrix: `none` models the raised
`numpy.linalg.LinAlgError`, which (for the exact-arithmetic idealisation of
the LU factorisation) occurs precisely when the determinant is zero.  A
matrix with a tiny nonzero determinant is inverted normally. -/
def npLinalgInv {α : Type*} [LinearOrderedField α] [DecidableEq α]
    (M : Mat2 α) : Option (Mat2 α) :=
  if M.det = 0 then none
  else some ⟨M.a22 / M.det, -M.a12 / M.det, -M.a21 / M.det, M.a11 / M.det⟩

/-- Operation kinds of `apply_operation` in `src/utils.py`.  The string
arguments of the source are modelled as an inductive; the `rotation` and
`stretch` branches (polar decomposition via `scipy.linalg.polar`, needing
real square roots) are not modelled because no claim mentions them. -/
inductive Op where
  | noOp
  | transpose
  | symmetric
  | skew
  | inverse
  | squared
  | cubed
  | volumetric
  | deviatoric
  | subtractIdentity
deriving DecidableEq, Repr

/-- `apply_operation(matrix, operation)` from `src/utils.py` (lines 6-52).
The `inverse` branch is the source's `try: return np.linalg.inv(matrix)
except np.linalg.LinAlgError: return np.eye(2)`. -/
def applyOperation {α : Type*} [LinearOrderedField α] [DecidableEq α]
    (M : Mat2 α) (op : Op) : Mat2 α :=
  match op with
  | .noOp => M
  | .transpose => M.transpose
  | .symmetric => (M + M.transpose).divScalar 2
  | .skew => (M - M.transpose).divScalar 2
  | .inverse => (npLinalgInv M).getD Mat2.identity
  | .squared => M * M
  | .cubed => M * M * M
  | .volumetric => Mat2.scale ((1 : α) / 2 * M.tr) Mat2.identity
  | .deviatoric => M - Mat2.scale ((1 : α) / 2 * M.tr) Mat2.identity
  | .subtractIdentity => M - Mat2.identity

/-- Scaling kinds of `apply_scaling` in `src/utils.py`.  The `normalized`
branch (Frobenius norm, needing a real square root) is not modelled because
no claim mentions it. -/
inductive Scaling where
  | original
  | determinant
  | halved
  | doubled
deriving DecidableEq, Repr

/-- `apply_scaling(matrix, scaling)` from `src/utils.py` (lines 55-77).
The `determinant` branch divides by the determinant only when
`abs(det) > 1e-10`, otherwise falling through to `return matrix`. -/
def applyScaling {α : Type*} [LinearOrderedField α] [DecidableEq α]
    (M : Mat2 α) (s : Scaling) : Mat2 α :=
  match s with
  | .original => M
  | .determinant => if |M.det| > 1 / 10 ^ 10 then M.divScalar M.det else M
  | .halved => M.divScalar 2
  | .doubled => Mat2.scale 2 M

/-! ## ShapeSampler: `generate_shape_points` (`src/utils.py` lines 80-134) -/

open Real in
/-- The `num_points` circle samples of `np.linspace(0, 2*np.pi, num_points,
endpoint=False)` followed by `cos`/`sin`: the point at angle `2*pi*k/n` for
`k < n`. -/
noncomputable def circlePoints (n : ℕ) : List (ℝ × ℝ) :=
  (List.range n).map fun (k : ℕ) =>
    (Real.cos (2 * π * (k : ℝ) / (n : ℝ)), Real.sin (2 * π * (k : ℝ) / (n : ℝ)))

/-- The square's corner list `np.array([[-1,-1],[1,-1],[1,1],[-1,1]])`. -/
def squareCorners : List (ℝ × ℝ) := [(-1, -1), (1, -1), (1, 1), (-1, 1)]

open Real in
/-- The hexagon's corner at index `i`: angle `2*pi*i/6` on the unit circle,
from `np.linspace(0, 2*np.pi, 6, endpoint=False)`. -/
noncomputable def hexCorner (i : ℕ) : ℝ × ℝ :=
  (Real.cos (2 * π * (i : ℝ) / 6), Real.sin (2 * π * (i : ℝ) / 6))

/-- Number of points generated on side `i` of a polygon with `sides` sides
for a clamped total of `n`: `points_per_side + (1 if i < remaining else 0)`
with `points_per_side = n // sides` and `remaining = n % sides`. -/
def sideCount (sides n i : ℕ) : ℕ :=
  n / sides + if i < n % sides then 1 else 0

/-- Linear interpolation `start + t * (end - start)` between two points. -/
def lerpPoint (p q : ℝ × ℝ) (t : ℝ) : ℝ × ℝ :=
  (p.1 + t * (q.1 - p.1), p.2 + t * (q.2 - p.2))

/-- `generate_shape_points(shape_type, num_points)` from `src/utils.py`.
`circle` samples the unit circle without the closing duplicate; `square`
and `hexagon` clamp the count to the corner count (4 resp. 6) and spread
points across the edges, each edge interpolated from its start corner
(parameter `t = j / n_side`, end corner excluded); any other shape string
falls back to the circle branch. -/
noncomputable def generateShapePoints (shape : String) (numPoints : ℕ) :
    List (ℝ × ℝ) :=
  if shape = "circle" then circlePoints numPoints
  else if shape = "square" then
    let n := max numPoints 4
    (List.range 4).flatMap fun (i : ℕ) =>
      (List.range (sideCount 4 n i)).map fun (j : ℕ) =>
        lerpPoint (squareCorners.getD i (0, 0))
          (squareCorners.getD ((i + 1) % 4) (0, 0))
          ((j : ℝ) / (sideCount 4 n i : ℝ))
  else if shape = "hexagon" then
    let n := max numPoints 6
    (List.range 6).flatMap fun (i : ℕ) =>
      (List.range (sideCount 6 n i)).map fun (j : ℕ) =>
        lerpPoint (hexCorner i) (hexCorner ((i + 1) % 6))
          ((j : ℝ) / (sideCount 6 n i : ℝ))
  else circlePoints numPoints

/-- The shape-specific minimum point count stated by the spec: 4 for the
square, 6 for the hexagon, no minimum otherwise. -/
def shapeMinimum (shape : String) : ℕ :=
  if shape = "square" then 4 else if shape = "hexagon" then 6 else 0

/-! ## TransformPipeline: `prepare_plot_data` (`src/utils.py` lines 142-206) -/

/-- An arrow `(x0, y0, x1, y1)` from tail to head, as the 4-tuples built by
`prepare_plot_data` and consumed by `create_plot`. -/
structure Arrow (α : Type*) where
  x0 : α
  y0 : α
  x1 : α
  y1 : α
deriving DecidableEq, Repr

/-- The per-panel geometry dictionary returned by `prepare_plot_data`.  In
the source the two reference-arrow entries are lists that always hold
exactly two arrows (`create_plot` indexes them at `[0]` and `[1]`), so they
are modelled as pairs. -/
structure PlotData where
  unmappedPoints : List (ℝ × ℝ)
  mappedPoints : List (ℝ × ℝ)
  unmappedArrows : List (Arrow ℝ)
  mappedArrows : List (Arrow ℝ)
  unmappedRefArrows : Arrow ℝ × Arrow ℝ
  mappedRefArrows : Arrow ℝ × Arrow ℝ

/-- `prepare_plot_data(matrix, shape_type, num_points, view_mode,
display_options)` from `src/utils.py`.  Unmapped shape points are sampled,
mapped through the matrix (`unmapped_points @ matrix.T`), and arrows are
derived per view mode; the reference vectors `(1,0)`, `(0,1)` are mapped
the same way and their arrows are always origin-anchored.  The
`display_options` argument is accepted but, exactly as in the source, never
read. -/
noncomputable def preparePlotData (M : Mat2 ℝ) (shape : String)
    (numPoints : ℕ) (viewMode : String) (displayOptions : List String) :
    PlotData :=
  let unmapped := generateShapePoints shape numPoints
  let mapped := unmapped.map M.apply
  let unmappedRefArrows : Arrow ℝ × Arrow ℝ := (⟨0, 0, 1, 0⟩, ⟨0, 0, 0, 1⟩)
  let mappedRefArrows : Arrow ℝ × Arrow ℝ :=
    (⟨0, 0, (M.apply (1, 0)).1, (M.apply (1, 0)).2⟩,
     ⟨0, 0, (M.apply (0, 1)).1, (M.apply (0, 1)).2⟩)
  if viewMode = "map" then
    { unmappedPoints := unmapped
      mappedPoints := mapped
      unmappedArrows := unmapped.map fun p => ⟨0, 0, p.1, p.2⟩
      mappedArrows := mapped.map fun p => ⟨0, 0, p.1, p.2⟩
      unmappedRefArrows := unmappedRefArrows
      mappedRefArrows := mappedRefArrows }
  else if viewMode = "difference" then
    { unmappedPoints := unmapped
      mappedPoints := mapped
      unmappedArrows := unmapped.map fun p => ⟨0, 0, p.1, p.2⟩
      mappedArrows := List.zipWith (fun u m => ⟨u.1, u.2, m.1, m.2⟩) unmapped mapped
      unmappedRefArrows := unmappedRefArrows
      mappedRefArrows := mappedRefArrows }
  else
    { unmappedPoints := unmapped
      mappedPoints :=
        List.zipWith (fun u m => (u.1 + m.1, u.2 + m.2)) unmapped mapped
      unmappedArrows := unmapped.map fun p => ⟨0, 0, p.1, p.2⟩
      mappedArrows :=
        List.zipWith (fun u m => ⟨u.1, u.2, u.1 + m.1, u.2 + m.2⟩) unmapped mapped
      unmappedRefArrows := unmappedRefArrows
      mappedRefArrows := mappedRefArrows }

/-! ## PlotRenderer: `create_plot` (`src/utils.py` lines 209-658)

Colors, opacities and line widths are presentational string constants and
are not modelled; the geometric payload of every emitted trace is. -/

/-- A drawable primitive emitted by the renderer: a polyline trace, a
filled (arrowhead) triangle trace, or a tail marker. -/
inductive Trace where
  | line (xs ys : List ℝ)
  | fillTriangle (xs ys : List ℝ)
  | marker (x y : ℝ)

/-- `np.arctan2(y, x)`, the angle of the vector `(x, y)` (zero at the
origin), via the complex argument. -/
noncomputable def atan2 (y x : ℝ) : ℝ := Complex.arg ⟨x, y⟩

/-- Rendering of one unmapped/mapped shape arrow in `create_plot`
(`src/utils.py` lines 214-290 and 292-364): guarded by
`if arrow_length > 0`, it emits the shaft line stopped short of the head by
`arrowhead_size`, the filled triangular arrowhead oriented along
`arctan2(dy, dx)`, and a marker at the tail; a zero-length arrow emits
nothing.  In the source the conversion to degrees and back to radians
cancels exactly. -/
noncomputable def renderShapeArrow (ahSize ahWidth : ℝ) (a : Arrow ℝ) :
    List Trace :=
  let dx := a.x1 - a.x0
  let dy := a.y1 - a.y0
  let arrowLength := Real.sqrt (dx ^ 2 + dy ^ 2)
  if arrowLength > 0 then
    let ratio := 1 - ahSize / arrowLength
    let angle := atan2 dy dx
    let c := Real.cos angle
    let s := Real.sin angle
    [Trace.line [a.x0, a.x0 + dx * ratio] [a.y0, a.y0 + dy * ratio],
     Trace.fillTriangle
       [a.x1, a.x1 - ahSize * c + ahWidth * s, a.x1 - ahSize * c - ahWidth * s,
        a.x1]
       [a.y1, a.y1 - ahSize * s - ahWidth * c, a.y1 - ahSize * s + ahWidth * c,
        a.y1],
     Trace.marker a.x0 a.y0]
  else []

/-- Rendering of one reference arrow in `create_plot` (`src/utils.py`
lines 400-507 and 509-616): the same shaft-plus-arrowhead construction but
with NO `arrow_length > 0` guard and no tail marker — the
`arrowhead_size / arrow_length` ratio is computed unconditionally. -/
noncomputable def renderRefArrow (ahSize ahWidth : ℝ) (a : Arrow ℝ) :
    List Trace :=
  let dx := a.x1 - a.x0
  let dy := a.y1 - a.y0
  let arrowLength := Real.sqrt (dx ^ 2 + dy ^ 2)
  let ratio := 1 - ahSize / arrowLength
  let angle := atan2 dy dx
  let c := Real.cos angle
  let s := Real.sin angle
  [Trace.line [a.x0, a.x0 + dx * ratio] [a.y0, a.y0 + dy * ratio],
   Trace.fillTriangle
     [a.x1, a.x1 - ahSize * c + ahWidth * s, a.x1 - ahSize * c - ahWidth * s,
      a.x1]
     [a.y1, a.y1 - ahSize * s - ahWidth * c, a.y1 - ahSize * s + ahWidth * c,
      a.y1]]

/-- The closed outline trace of a point set: the coordinate columns with
the first point appended again (`x = np.append(x, x[0])`); modelled with
`take 1` so the (never exercised) empty case appends nothing instead of
raising `IndexError`. -/
def outlineTrace (pts : List (ℝ × ℝ)) : Trace :=
  Trace.line (pts.map Prod.fst ++ (pts.map Prod.fst).take 1)
    (pts.map Prod.snd ++ (pts.map Prod.snd).take 1)

/-- `create_plot(plot_data, display_options, axis_range)` from
`src/utils.py`, restricted to the traces it adds to the figure (the axis
range only affects the layout, not the traces).  Shape arrows use head
size/width `0.05/0.04` (unmapped) and `0.06/0.045` (mapped); reference
arrows use `0.075/0.055` and are rendered unconditionally for both the
x-axis and y-axis reference of each enabled reference class. -/
noncomputable def createPlot (d : PlotData) (displayOptions : List String) :
    List Trace :=
  (if "show_unmapped_arrows" ∈ displayOptions then
    d.unmappedArrows.flatMap (renderShapeArrow (5 / 100) (4 / 100))
  else []) ++
  (if "show_mapped_arrows" ∈ displayOptions then
    d.mappedArrows.flatMap (renderShapeArrow (6 / 100) (45 / 1000))
  else []) ++
  (if "show_unmapped_outline" ∈ displayOptions then
    [outlineTrace d.unmappedPoints]
  else []) ++
  (if "show_mapped_outline" ∈ displayOptions then
    [outlineTrace d.mappedPoints]
  else []) ++
  (if "show_unmapped_reference" ∈ displayOptions then
    renderRefArrow (75 / 1000) (55 / 1000) d.unmappedRefArrows.1 ++
      renderRefArrow (75 / 1000) (55 / 1000) d.unmappedRefArrows.2
  else []) ++
  (if "show_mapped_reference" ∈ displayOptions then
    renderRefArrow (75 / 1000) (55 / 1000) d.mappedRefArrows.1 ++
      renderRefArrow (75 / 1000) (55 / 1000) d.mappedRefArrows.2
  else [])

/-! ## AxisRangeCalculator (`src/callbacks.py`, `update_displays`,
lines 442-535) -/

/-- The shared axis range `{"x": [...], "y": [...]}`. -/
structure AxisRange (α : Type*) where
  xlo : α
  xhi : α
  ylo : α
  yhi : α
deriving DecidableEq, Repr

/-- The global axis range computed by `update_displays` from the collected
coordinate lists (`src/callbacks.py` lines 496-526), `none` when either
list is empty (`if all_points_x and all_points_y`).  Mirrors the source
order: the padding is `max_range * 0.05` computed from the raw
`max(x_range, y_range)` BEFORE `max_range` is floored at the minimum range
`2.2`. -/
def axisRangeOfCoords {α : Type*} [LinearOrderedField α]
    (allPointsX allPointsY : List α) : Option (AxisRange α) :=
  match allPointsX, allPointsY with
  | x0 :: xs, y0 :: ys =>
    let xMin := xs.foldl min x0
    let xMax := xs.foldl max x0
    let yMin := ys.foldl min y0
    let yMax := ys.foldl max y0
    let xRange := xMax - xMin
    let yRange := yMax - yMin
    let maxRange := max xRange yRange
    let padding := maxRange * (5 / 100)
    let xCenter := (xMax + xMin) / 2
    let yCenter := (yMax + yMin) / 2
    let minRange : α := 22 / 10
    let maxRange2 := max maxRange minRange
    some ⟨xCenter - maxRange2 / 2 - padding, xCenter + maxRange2 / 2 + padding,
          yCenter - maxRange2 / 2 - padding, yCenter + maxRange2 / 2 + padding⟩
  | _, _ => none

/-- The x coordinates one panel contributes to the axis-range scan in
`update_displays`: the unmapped points, the mapped points, and the head
x coordinates of the two mapped reference arrows. -/
def panelScanX (d : PlotData) : List ℝ :=
  d.unmappedPoints.map Prod.fst ++ d.mappedPoints.map Prod.fst ++
    [d.mappedRefArrows.1.x1, d.mappedRefArrows.2.x1]

/-- The y coordinates one panel contributes to the axis-range scan. -/
def panelScanY (d : PlotData) : List ℝ :=
  d.unmappedPoints.map Prod.snd ++ d.mappedPoints.map Prod.snd ++
    [d.mappedRefArrows.1.y1, d.mappedRefArrows.2.y1]

/-- The shared axis range of `update_displays` over the active panels'
geometry. -/
noncomputable def updateDisplaysAxisRange (panels : List PlotData) :
    Option (AxisRange ℝ) :=
  axisRangeOfCoords (panels.flatMap panelScanX) (panels.flatMap panelScanY)

/-- The axis range as the words of the spec and of claim C1 describe it:
identical to `axisRangeOfCoords` except that the padding is
`0.05 * span` with `span = max(x_span, y_span, 2.2)` ALREADY floored at
`2.2`.  Stated from the spec's words only, for comparison with the
source-derived `axisRangeOfCoords`. -/
def claimAxisRangeOfCoords {α : Type*} [LinearOrderedField α]
    (allPointsX allPointsY : List α) : Option (AxisRange α) :=
  match allPointsX, allPointsY with
  | x0 :: xs, y0 :: ys =>
    let xMin := xs.foldl min x0
    let xMax := xs.foldl max x0
    let yMin := ys.foldl min y0
    let yMax := ys.foldl max y0
    let span := max (max (xMax - xMin) (yMax - yMin)) (22 / 10)
    let padding := (5 / 100 : α) * span
    let xCenter := (xMax + xMin) / 2
    let yCenter := (yMax + yMin) / 2
    some ⟨xCenter - span / 2 - padding, xCenter + span / 2 + padding,
          yCenter - span / 2 - padding, yCenter + span / 2 + padding⟩
  | _, _ => none

/-! ## UI matrix resolution (`src/callbacks.py`) -/

/-- `get_matrix_from_values(values)` from `src/callbacks.py` lines 538-552:
missing cells default to the identity's corresponding entry, and if all
four resolved cells are zero the diagonal is reset to 1 (yielding the
identity, since the off-diagonal cells are zero in that case). -/
def getMatrixFromValues (a11 a12 a21 a22 : Option ℚ) : Mat2 ℚ :=
  let v11 := a11.getD 1
  let v12 := a12.getD 0
  let v21 := a21.getD 0
  let v22 := a22.getD 1
  if v11 = 0 ∧ v12 = 0 ∧ v21 = 0 ∧ v22 = 0 then ⟨1, v12, v21, 1⟩
  else ⟨v11, v12, v21, v22⟩

/-- The base matrix built inside `update_display_info` (`src/callbacks.py`
lines 363-382), the path feeding the per-panel effective-matrix text: the
same per-cell defaults, but with NO all-zero-to-identity substitution. -/
def displayInfoBaseMatrix (a11 a12 a21 a22 : Option ℚ) : Mat2 ℚ :=
  ⟨a11.getD 1, a12.getD 0, a21.getD 0, a22.getD 1⟩

/-- The x coordinates scanned in a recompute cycle whose four panels all
use the default identity base matrix, shape `circle`, point count 4 and
view `map`: per panel the four unit-circle points `(1,0), (0,1), (-1,0),
(0,-1)`, the identical mapped points, and the mapped reference heads
`(1,0), (0,1)`. -/
def c1ScanX : List ℚ :=
  [1, 0, -1, 0, 1, 0, -1, 0, 1, 0,
   1, 0, -1, 0, 1, 0, -1, 0, 1, 0,
   1, 0, -1, 0, 1, 0, -1, 0, 1, 0,
   1, 0, -1, 0, 1, 0, -1, 0, 1, 0]

/-- The matching y coordinates of the `c1ScanX` recompute cycle. -/
def c1ScanY : List ℚ :=
  [0, 1, 0, -1, 0, 1, 0, -1, 0, 1,
   0, 1, 0, -1, 0, 1, 0, -1, 0, 1,
   0, 1, 0, -1, 0, 1, 0, -1, 0, 1,
   0, 1, 0, -1, 0, 1, 0, -1, 0, 1]

/-! ## Helper lemmas -/

theorem zipWith_left_of_map {α β γ : Type*} (g : α → γ) (f : α → β)
    (l : List α) :
    List.zipWith (fun u _ => g u) l (l.map f) = l.map g := by
  induction l with
  | nil => rfl
  | cons x xs ih => simp [ih]

theorem renderShapeArrow_zero_length (ahSize ahWidth x y : ℝ) :
    renderShapeArrow ahSize ahWidth ⟨x, y, x, y⟩ = [] := by
  simp [renderShapeArrow]

/-! ## Claim theorems -/

/-- C3 (amended): `apply_operation(M, "inverse")` returns the 2x2 identity,
with no error surfaced, for every EXACTLY singular matrix (determinant
zero) — the case in which `np.linalg.inv` raises `LinAlgError`.  (The
original claim also asserted this for near-singular matrices; the
counterexample shows those are inverted normally.) -/
theorem c3_inverse_singular_returns_identity (M : Mat2 ℚ) (h : M.det = 0) :
    applyOperation M Op.inverse = Mat2.identity := by
  simp [applyOperation, npLinalgInv, h]

/-- Witness for C3: the singular matrix `[[1,2],[2,4]]` maps to the
identity under the `inverse` operation. -/
theorem c3_inverse_singular_returns_identity_witness :
    Mat2.det (⟨1, 2, 2, 4⟩ : Mat2 ℚ) = 0 ∧
      applyOperation (⟨1, 2, 2, 4⟩ : Mat2 ℚ) Op.inverse = Mat2.identity :=
  ⟨by norm_num [Mat2.det],
   c3_inverse_singular_returns_identity ⟨1, 2, 2, 4⟩ (by norm_num [Mat2.det])⟩

/-- Counterexample for C3 as stated: `M = [[1e-6, 0], [0, 1e-6]]` is
near-singular by the repository's own threshold (`|det| = 1e-12 ≤ 1e-10`,
the cutoff `apply_scaling` uses for near-singularity) yet has nonzero
determinant, so `np.linalg.inv` does not raise and
`apply_operation(M, "inverse")` returns `[[1e6, 0], [0, 1e6]]`, not the
identity. -/
theorem c3_counterexample_near_singular_inverted :
    Mat2.det (⟨1 / 1000000, 0, 0, 1 / 1000000⟩ : Mat2 ℚ) ≠ 0 ∧
      |Mat2.det (⟨1 / 1000000, 0, 0, 1 / 1000000⟩ : Mat2 ℚ)| ≤ 1 / 10 ^ 10 ∧
      applyOperation (⟨1 / 1000000, 0, 0, 1 / 1000000⟩ : Mat2 ℚ) Op.inverse ≠
        Mat2.identity := by
  have hdet : Mat2.det (⟨1 / 1000000, 0, 0, 1 / 1000000⟩ : Mat2 ℚ) =
      1 / 1000000000000 := by norm_num [Mat2.det]
  refine ⟨by rw [hdet]; norm_num,
    by rw [hdet, abs_of_pos (by norm_num)]; norm_num, ?_⟩
  simp only [applyOperation, npLinalgInv, hdet]
  rw [if_neg (by norm_num)]
  simp only [Option.getD_some, Mat2.identity, ne_eq, Mat2.mk.injEq]
  norm_num

/-- C7: `apply_scaling(M, "determinant")` leaves `M` unchanged when
`|det(M)| ≤ 1e-10` (in particular on every singular matrix, with no
division error) and divides `M` by its determinant otherwise. -/
theorem c7_determinant_scaling_threshold (M : Mat2 ℚ) :
    applyScaling M Scaling.determinant =
      if |M.det| ≤ 1 / 10 ^ 10 then M else M.divScalar M.det := by
  simp only [applyScaling]
  rcases le_or_lt |M.det| (1 / 10 ^ 10) with h | h
  · rw [if_neg (not_lt.mpr h), if_pos h]
  · rw [if_pos h, if_neg (not_le.mpr h)]

/-- C9: applying the `inverse` operation twice reconstructs any matrix
with nonzero determinant exactly (the embedding is exact arithmetic, the
idealisation the claim itself names). -/
theorem c9_inverse_roundtrip (M : Mat2 ℚ) (h : M.det ≠ 0) :
    applyOperation (applyOperation M Op.inverse) Op.inverse = M := by
  obtain ⟨a, b, c, d⟩ := M
  have hΔ : a * d - b * c ≠ 0 := h
  have hinv : applyOperation (⟨a, b, c, d⟩ : Mat2 ℚ) Op.inverse =
      ⟨d / (a * d - b * c), -b / (a * d - b * c),
       -c / (a * d - b * c), a / (a * d - b * c)⟩ := by
    simp only [applyOperation, npLinalgInv, Mat2.det]
    rw [if_neg hΔ]
    rfl
  rw [hinv]
  have hdet2 : Mat2.det (⟨d / (a * d - b * c), -b / (a * d - b * c),
      -c / (a * d - b * c), a / (a * d - b * c)⟩ : Mat2 ℚ) =
      1 / (a * d - b * c) := by
    simp only [Mat2.det]
    rw [div_mul_div_comm, div_mul_div_comm, div_sub_div_same,
      show d * a - -b * -c = a * d - b * c by ring,
      div_mul_cancel_left₀ hΔ, one_div]
  simp only [applyOperation, npLinalgInv, hdet2]
  rw [if_neg (one_div_ne_zero hΔ)]
  simp only [Option.getD_some, Mat2.mk.injEq]
  refine ⟨?_, ?_, ?_, ?_⟩ <;> field_simp

/-- Witness for C9: the matrix `[[1,2],[3,4]]` (determinant `-2`)
round-trips through two `inverse` operations. -/
theorem c9_inverse_roundtrip_witness :
    Mat2.det (⟨1, 2, 3, 4⟩ : Mat2 ℚ) ≠ 0 ∧
      applyOperation (applyOperation (⟨1, 2, 3, 4⟩ : Mat2 ℚ) Op.inverse)
        Op.inverse = ⟨1, 2, 3, 4⟩ :=
  ⟨by norm_num [Mat2.det],
   c9_inverse_roundtrip ⟨1, 2, 3, 4⟩ (by norm_num [Mat2.det])⟩

/-- C8 (amended): when all four resolved cells are zero,
`get_matrix_from_values` — the base-matrix constructor used by the plot
pipeline `update_displays` — substitutes the identity wholesale; the
base matrix built inside `update_display_info` (the per-panel
effective-matrix text path) applies only the per-cell defaults, with no
all-zero substitution. -/
theorem c8_all_zero_identity_substitution (a11 a12 a21 a22 : Option ℚ) :
    ((a11.getD 1 = 0 ∧ a12.getD 0 = 0 ∧ a21.getD 0 = 0 ∧ a22.getD 1 = 0) →
        getMatrixFromValues a11 a12 a21 a22 = Mat2.identity) ∧
      displayInfoBaseMatrix a11 a12 a21 a22 =
        ⟨a11.getD 1, a12.getD 0, a21.getD 0, a22.getD 1⟩ := by
  refine ⟨fun h => ?_, rfl⟩
  simp only [getMatrixFromValues]
  rw [if_pos h]
  rw [h.2.1, h.2.2.1]
  rfl

/-- Witness for C8: with all four cells entered as `0`, the plot pipeline's
base matrix is the identity while the display-info path's base matrix is
the all-zero matrix. -/
theorem c8_all_zero_identity_substitution_witness :
    getMatrixFromValues (some 0) (some 0) (some 0) (some 0) = Mat2.identity ∧
      displayInfoBaseMatrix (some 0) (some 0) (some 0) (some 0) =
        (⟨0, 0, 0, 0⟩ : Mat2 ℚ) :=
  ⟨(c8_all_zero_identity_substitution (some 0) (some 0) (some 0) (some 0)).1
      (by decide),
   ((c8_all_zero_identity_substitution (some 0) (some 0) (some 0)
      (some 0)).2).trans (by decide)⟩

/-- Counterexample for C8 as stated: on the all-zero input the plot
pipeline's `get_matrix_from_values` substitutes the identity, but the
per-panel effective-matrix text path (`update_display_info`) keeps the
all-zero base matrix — the substitution does NOT happen in every consumer. -/
theorem c8_counterexample_display_info_keeps_zero :
    getMatrixFromValues (some 0) (some 0) (some 0) (some 0) = Mat2.identity ∧
      displayInfoBaseMatrix (some 0) (some 0) (some 0) (some 0) ≠
        Mat2.identity := by
  decide

/-- C10: `prepare_plot_data` never reads its `display_options` argument, so
two calls differing only in the display options return identical geometry. -/
theorem c10_geometry_ignores_display_options (M : Mat2 ℝ) (shape : String)
    (numPoints : ℕ) (viewMode : String) (opts1 opts2 : List String) :
    preparePlotData M shape numPoints viewMode opts1 =
      preparePlotData M shape numPoints viewMode opts2 := rfl

/-- C6: in `normal` view mode, for every matrix, shape and point count, the
mapped arrows returned by `prepare_plot_data` have the unmapped point as
tail and the unmapped point plus the mapped vector as tip, and the mapped
outline point set is recomputed as exactly these extended tips (not the raw
mapped points). -/
theorem c6_normal_mode_extended_tips (M : Mat2 ℝ) (shape : String)
    (numPoints : ℕ) (opts : List String) :
    ((preparePlotData M shape numPoints "normal" opts).mappedArrows.map
        fun a => (a.x0, a.y0)) = generateShapePoints shape numPoints ∧
      ((preparePlotData M shape numPoints "normal" opts).mappedArrows.map
        fun a => (a.x1, a.y1)) =
        List.zipWith (fun u m => (u.1 + m.1, u.2 + m.2))
          (generateShapePoints shape numPoints)
          ((generateShapePoints shape numPoints).map M.apply) ∧
      (preparePlotData M shape numPoints "normal" opts).mappedPoints =
        List.zipWith (fun u m => (u.1 + m.1, u.2 + m.2))
          (generateShapePoints shape numPoints)
          ((generateShapePoints shape numPoints).map M.apply) := by
  have hmap : ¬(("normal" : String) = "map") := by decide
  have hdiff : ¬(("normal" : String) = "difference") := by decide
  refine ⟨?_, ?_, ?_⟩ <;>
    simp only [preparePlotData, if_neg hmap, if_neg hdiff,
      List.map_zipWith, zipWith_left_of_map, Prod.mk.eta, List.map_id']

/-- C4: for every shape kind (with unrecognized kinds falling back to the
circle) and every point count at or above the shape's minimum (4 for
square, 6 for hexagon), `generate_shape_points` returns exactly
`max(pointCount, minimum)` points. -/
theorem c4_shape_point_count (shape : String) (numPoints : ℕ)
    (h : shapeMinimum shape ≤ numPoints) :
    (generateShapePoints shape numPoints).length =
      max numPoints (shapeMinimum shape) := by
  clear h
  by_cases hc : shape = "circle"
  · subst hc
    simp [generateShapePoints, circlePoints, shapeMinimum]
  · by_cases hs : shape = "square"
    · subst hs
      simp only [generateShapePoints, shapeMinimum, if_neg (by decide :
        ¬(("square" : String) = "circle")), if_pos rfl, if_true,
        if_neg (by decide : ¬(("square" : String) = "hexagon"))]
      rw [show List.range 4 = [0, 1, 2, 3] from rfl]
      simp only [List.flatMap_cons, List.flatMap_nil, List.append_nil,
        List.length_append, List.length_map, List.length_range]
      simp only [sideCount]
      split_ifs <;> omega
    · by_cases hh : shape = "hexagon"
      · subst hh
        simp only [generateShapePoints, shapeMinimum, if_neg (by decide :
          ¬(("hexagon" : String) = "circle")), if_neg (by decide :
          ¬(("hexagon" : String) = "square")), if_pos rfl, if_true]
        rw [show List.range 6 = [0, 1, 2, 3, 4, 5] from rfl]
        simp only [List.flatMap_cons, List.flatMap_nil, List.append_nil,
          List.length_append, List.length_map, List.length_range]
        simp only [sideCount]
        split_ifs <;> omega
      · simp only [generateShapePoints, shapeMinimum, if_neg hc, if_neg hs,
          if_neg hh, circlePoints, List.length_map, List.length_range]
        omega

/-- Witness for C4: the square with requested point count 7 (at or above
the square's minimum of 4) yields exactly `max 7 4 = 7` points. -/
theorem c4_shape_point_count_witness :
    shapeMinimum "square" ≤ 7 ∧
      (generateShapePoints "square" 7).length = max 7 (shapeMinimum "square") :=
  ⟨by decide, c4_shape_point_count "square" 7 (by decide)⟩

/-- C2 (amended): zero-length unmapped and mapped shape arrows are skipped
by the renderer: prepending a coincident-tail/head arrow to either shape
arrow list leaves the emitted traces unchanged — no line segment, no
arrowhead, no marker, and the `arrow_length > 0` guard prevents any
division by the zero length.  (For the two reference-arrow classes the
source has no such guard; see the counterexample.) -/
theorem c2_zero_length_shape_arrows_skipped (d : PlotData)
    (opts : List String) (x y : ℝ) :
    createPlot { d with unmappedArrows := ⟨x, y, x, y⟩ :: d.unmappedArrows }
        opts = createPlot d opts ∧
      createPlot { d with mappedArrows := ⟨x, y, x, y⟩ :: d.mappedArrows }
        opts = createPlot d opts := by
  constructor <;>
    simp only [createPlot, List.flatMap_cons, renderShapeArrow_zero_length,
      List.nil_append]

/-- C2 counterexample: with the zero matrix as the effective matrix
(reachable, e.g., as operation `skew` applied to any symmetric base
matrix), both mapped reference arrows produced by `prepare_plot_data` are
zero-length `(0,0,0,0)` arrows, yet with `show_mapped_reference` enabled
`create_plot` still emits traces for them (their shaft line and arrowhead,
with the `arrowhead_size / arrow_length` division unguarded in the
source) — refuting the claim that zero-length arrows of every class are
skipped. -/
theorem c2_counterexample_zero_ref_arrow_rendered :
    (preparePlotData ⟨0, 0, 0, 0⟩ "square" 4 "map" []).mappedRefArrows =
        (⟨0, 0, 0, 0⟩, ⟨0, 0, 0, 0⟩) ∧
      createPlot (preparePlotData ⟨0, 0, 0, 0⟩ "square" 4 "map" [])
        ["show_mapped_reference"] ≠ [] := by
  have href : (preparePlotData ⟨0, 0, 0, 0⟩ "square" 4 "map"
      []).mappedRefArrows = ((⟨0, 0, 0, 0⟩ : Arrow ℝ), (⟨0, 0, 0, 0⟩ : Arrow ℝ)) := by
    simp [preparePlotData, Mat2.apply]
  refine ⟨href, ?_⟩
  simp [createPlot, renderRefArrow, href]

/-- C1 (amended): for every non-empty collection of scanned coordinates,
the computed axis range follows the claimed formulas — `span =
max(x_span, y_span, 2.2)`, centers at the midpoint of each axis's min and
max, final interval `[center - span/2 - padding, center + span/2 +
padding]` — except that `padding = 0.05 * max(x_span, y_span)` is computed
from the UN-floored span (the claim floors it first; see the
counterexample). -/
theorem c1_axis_range_formula {α : Type*} [LinearOrderedField α]
    (x0 y0 : α) (xs ys : List α) :
    axisRangeOfCoords (x0 :: xs) (y0 :: ys) =
      some
        { xlo := (xs.foldl max x0 + xs.foldl min x0) / 2 -
            max (max (xs.foldl max x0 - xs.foldl min x0)
              (ys.foldl max y0 - ys.foldl min y0)) (22 / 10) / 2 -
            5 / 100 * max (xs.foldl max x0 - xs.foldl min x0)
              (ys.foldl max y0 - ys.foldl min y0)
          xhi := (xs.foldl max x0 + xs.foldl min x0) / 2 +
            max (max (xs.foldl max x0 - xs.foldl min x0)
              (ys.foldl max y0 - ys.foldl min y0)) (22 / 10) / 2 +
            5 / 100 * max (xs.foldl max x0 - xs.foldl min x0)
              (ys.foldl max y0 - ys.foldl min y0)
          ylo := (ys.foldl max y0 + ys.foldl min y0) / 2 -
            max (max (xs.foldl max x0 - xs.foldl min x0)
              (ys.foldl max y0 - ys.foldl min y0)) (22 / 10) / 2 -
            5 / 100 * max (xs.foldl max x0 - xs.foldl min x0)
              (ys.foldl max y0 - ys.foldl min y0)
          yhi := (ys.foldl max y0 + ys.foldl min y0) / 2 +
            max (max (xs.foldl max x0 - xs.foldl min x0)
              (ys.foldl max y0 - ys.foldl min y0)) (22 / 10) / 2 +
            5 / 100 * max (xs.foldl max x0 - xs.foldl min x0)
              (ys.foldl max y0 - ys.foldl min y0) } := by
  simp only [axisRangeOfCoords, Option.some.injEq, AxisRange.mk.injEq]
  refine ⟨?_, ?_, ?_, ?_⟩ <;> ring

/-- C1 counterexample: on the realizable scanned collection of `c1ScanX`
and `c1ScanY` (all four panels on the default identity matrix, circle,
point count 4: data span 2 on each axis, so the 2.2 floor engages) the
code's range uses padding `0.05 * 2 = 0.1`, giving `[-1.2, 1.2]`, while
the claim's formula (padding computed from the floored span,
`0.05 * 2.2 = 0.11`) would give `[-1.21, 1.21]`. -/
theorem c1_counterexample_padding_unfloored :
    axisRangeOfCoords c1ScanX c1ScanY =
        some ⟨-6 / 5, 6 / 5, -6 / 5, 6 / 5⟩ ∧
      claimAxisRangeOfCoords c1ScanX c1ScanY =
        some ⟨-121 / 100, 121 / 100, -121 / 100, 121 / 100⟩ ∧
      axisRangeOfCoords c1ScanX c1ScanY ≠
        claimAxisRangeOfCoords c1ScanX c1ScanY := by
  have h1 : axisRangeOfCoords c1ScanX c1ScanY =
      some ⟨-6 / 5, 6 / 5, -6 / 5, 6 / 5⟩ := by
    norm_num [axisRangeOfCoords, c1ScanX, c1ScanY, List.foldl, min_def,
      max_def]
  have h2 : claimAxisRangeOfCoords c1ScanX c1ScanY =
      some ⟨-121 / 100, 121 / 100, -121 / 100, 121 / 100⟩ := by
    norm_num [claimAxisRangeOfCoords, c1ScanX, c1ScanY, List.foldl, min_def,
      max_def]
  refine ⟨h1, h2, ?_⟩
  rw [h1, h2]
  simp only [ne_eq, Option.some.injEq, AxisRange.mk.injEq, not_and]
  intro h
  norm_num at h

end Lineon
